import Mathlib

/-!
Verification development for the Secure-translator repository
(`app.py`, `appV2.py`, `appV3.py`, `appV5.py`).

The repository is a four-variant Streamlit pipeline:
transcribe → translate → synthesize → [encrypt] → present/download.
This file shallowly embeds the pipeline glue code and the security
helpers, and proves (or refutes) the frozen specification claims
about them.

Python byte strings are modelled as `List Nat` (one entry per byte),
Python text strings as Lean `String`, and fallible operations as
`Option`/`Except` values.  External capabilities (the whisper model,
the translation service, the speech synthesizer) are modelled as
oracle fields of an `Env` record, since the application code treats
them as black boxes; the application-level wrappers and the `main`
control flow are embedded faithfully from the source.
-/

set_option maxHeartbeats 1000000

namespace SecureTranslator

/-- A Python byte string: a list of byte values. -/
abbrev Bytes := List Nat

/-! ## Security stage (src/appV2.py 18-33, src/appV3.py 18-30, src/appV5.py 17-31)

The repository delegates symmetric encryption wholesale to
`cryptography.fernet.Fernet`, whose code is not part of `src/`.
The primitive is therefore modelled from the spec. -/

/-- Modelled from the spec: the Fernet key space ("symmetric key material,
generated fresh per secure request ... uniformly at random from the cipher's
key space").  A Fernet key is 32 bytes of key material; `generate_key()`
(src/appV3.py line 18) returns an arbitrary member of this space. -/
def validKey (k : Bytes) : Bool :=
  k.length == 32 && k.all (fun b => b < 256)

/-- Modelled from the spec: the `cryptography` library's Fernet encryption
primitive, which is not part of `src/`.  The spec treats it as a black-box
"symmetric authenticated-encryption primitive" whose tokens are
"ciphertext + implicit key-derivation/algorithm metadata ... decryptable only
by supplying the exact matching key", and asserts it is deterministically
tamper-evident.  The model realises that contract with an idealized token:
the body `key ++ payload` followed by a full-fidelity authentication tag
(a copy of the body, an idealized MAC with perfect binding).  Confidentiality
is not modelled; no claim depends on it. -/
def fernetToken (key file_bytes : Bytes) : Bytes :=
  (key ++ file_bytes) ++ (key ++ file_bytes)

/-- Modelled from the spec: Fernet token verification and decryption.
Checks the key shape (the `Fernet(key)` constructor rejects malformed keys),
parses the token into body and tag, verifies the tag and the embedded key,
and recovers the payload; any failure is a `none`. -/
def fernetVerify (key data : Bytes) : Option Bytes :=
  if validKey key then
    if data.length % 2 = 0 then
      let body := data.take (data.length / 2)
      let tag := data.drop (data.length / 2)
      if body = tag ∧ body.take 32 = key then some (body.drop 32)
      else none
    else none
  else none

/-- Embeds `encrypt_file` (src/appV3.py lines 21-23; identical in appV2/appV5):
`Fernet(key).encrypt(file_bytes)`. -/
def encrypt_file (file_bytes key : Bytes) : Bytes :=
  fernetToken key file_bytes

/-- Embeds `decrypt_file` (src/appV3.py lines 25-30; identical in appV2/appV5):
`try: return Fernet(key).decrypt(encrypted_data) except Exception: return None`.
Every failure of the constructor or of token verification is caught and
returned as the sentinel `none`. -/
def decrypt_file (encrypted_data key : Bytes) : Option Bytes :=
  fernetVerify key encrypted_data

/-- Flip bit `j` of byte `i` of a byte string (the tamper operation of the
spec's tamper property). -/
def flipBit (bs : Bytes) (i j : Nat) : Bytes :=
  bs.set i ((bs.getD i 0) ^^^ (2 ^ j))

/-- Embeds the decrypt-tab success decision of src/appV5.py lines 283-289:
`decrypted_data = decrypt_file(...)` followed by `if decrypted_data:`.
Python truthiness makes both `None` and the empty byte string falsy, so
this returns `true` exactly when the interface shows "Decryption successful!". -/
def appV5_decrypt_reports_success (data key : Bytes) : Bool :=
  match decrypt_file data key with
  | some p => !p.isEmpty
  | none => false

/-! ## Pipeline embedding

Each variant's `main` is a straight-line pipeline over external
capabilities.  The capabilities (whisper model, googletrans, gTTS) and
the request context (the uploaded temp file, the chosen language, the
generated key) are modelled as an `Env`; a run of the pipeline is
embedded as a function from `Env` to the list of observable events it
performs, in program order.  Python local variables are inlined (the
wrapper calls are pure functions of the `Env`). -/

/-- The request context and the outcomes of the external capabilities for
one pipeline run.  `whisper`/`translate`/`tts`/`ttsFile` model the
black-box calls: `Except.error e` is the call raising an exception whose
string form is `e`. -/
structure Env where
  buttonPressed : Bool
  fileExists : Bool
  fileSize : Nat
  whisper : Except String String
  translate : String → String → Except String String
  tts : String → Except String Bytes
  ttsFile : String → Except String String
  readFile : String → Bytes
  langCode : String
  key : Bytes

/-- Observable events of one pipeline run, in program order. -/
inductive Event where
  /-- the model call `model.transcribe` ran inside `transcribe_audio`. -/
  | modelTranscribe
  /-- the translation wrapper was invoked on this transcript. -/
  | translateCall (input : String)
  /-- the wrapper `text_to_speech` was invoked on this translation. -/
  | ttsCall (input : String)
  /-- the wrapper `encrypt_file` was invoked with this first argument. -/
  | encryptCall (arg : Sum String Bytes)
  /-- the audio player `st.audio` received this argument. -/
  | audioOut (arg : Sum String Bytes)
  /-- a download output received this argument. -/
  | downloadOut (arg : Sum String Bytes)
  /-- the freshly generated decryption key was displayed. -/
  | keyShown
  /-- the message was shown via `st.error(msg)` and `st.stop()` raised. -/
  | errorOut (msg : String)
  /-- the request-scoped temporary audio file was removed. -/
  | unlinkTmp
  /-- an uncaught exception ended the run. -/
  | raisedException
  deriving DecidableEq

/-- The Python predicate `s.startswith(p)`. -/
def pyStartswith (s p : String) : Bool :=
  decide (s.data.take p.data.length = p.data)

/-- True when the trace contains a translation-wrapper invocation. -/
def callsTranslate (tr : List Event) : Bool :=
  tr.any fun e => match e with
    | Event.translateCall _ => true
    | _ => false

/-- True when the trace contains a `text_to_speech` invocation. -/
def callsTts (tr : List Event) : Bool :=
  tr.any fun e => match e with
    | Event.ttsCall _ => true
    | _ => false

/-- True when the trace contains an `encrypt_file` invocation. -/
def callsEncrypt (tr : List Event) : Bool :=
  tr.any fun e => match e with
    | Event.encryptCall _ => true
    | _ => false

/-- True when the trace removes the request temp file. -/
def removesTmp (tr : List Event) : Bool :=
  tr.any fun e => match e with
    | Event.unlinkTmp => true
    | _ => false

/-- True when `encrypt_file` received a "Speech generation error" string. -/
def encryptGetsErrString (tr : List Event) : Bool :=
  tr.any fun e => match e with
    | Event.encryptCall (Sum.inl s) => pyStartswith s "Speech generation error"
    | _ => false

/-- True when `st.audio` received a "Speech generation error" string. -/
def audioGetsErrString (tr : List Event) : Bool :=
  tr.any fun e => match e with
    | Event.audioOut (Sum.inl s) => pyStartswith s "Speech generation error"
    | _ => false

/-- True when a download output received a "Speech generation error" string. -/
def downloadGetsErrString (tr : List Event) : Bool :=
  tr.any fun e => match e with
    | Event.downloadOut (Sum.inl s) => pyStartswith s "Speech generation error"
    | _ => false

/-- The early-exit contract of spec section 2: once a stage returns an
error-tagged result the remaining stages are never invoked.
`tRes` is the variant's transcription result and `trRes` the variant's
translation result for the run's actual transcript. -/
def shortCircuits (tRes : Env → String) (trRes : Env → String)
    (run : Env → List Event) : Prop :=
  ∀ env : Env,
    (pyStartswith (tRes env) "Error" = true →
      callsTranslate (run env) = false ∧ callsTts (run env) = false ∧
        callsEncrypt (run env) = false) ∧
    (pyStartswith (trRes env) "Translation error" = true →
      callsTts (run env) = false ∧ callsEncrypt (run env) = false)

namespace App

/-- Embeds `transcribe_audio` of src/app.py lines 52-61: missing-file and
empty-file guards with their two dedicated messages, then the model call
(with its exception caught into a tagged string).  The second component
records whether `model.transcribe` was invoked. -/
def transcribe_audio (env : Env) : String × List Event :=
  if env.fileExists = false then ("Error: Audio file not found", [])
  else if env.fileSize = 0 then ("Error: Audio file is empty", [])
  else match env.whisper with
    | Except.ok t => (t, [Event.modelTranscribe])
    | Except.error e => ("Error during transcription: " ++ e, [Event.modelTranscribe])

/-- Embeds `translate_to_tamil` of src/app.py lines 32-38. -/
def translate_to_tamil (env : Env) (text : String) : String :=
  match env.translate text "ta" with
  | Except.ok t => t
  | Except.error e => "Translation error: " ++ e

/-- Embeds `text_to_speech` of src/app.py lines 40-50: returns the path of
the saved speech file, or a tagged error string. -/
def text_to_speech (env : Env) (text : String) : String :=
  match env.ttsFile text with
  | Except.ok path => path
  | Except.error e => "Speech generation error: " ++ e

/-- The `try:` body of src/app.py lines 90-132: the button-guarded pipeline
transcribe → translate → synthesize → play/download, each stage guarded by
its error-tag check and `st.stop()`. -/
def runBody (env : Env) : List Event :=
  if env.buttonPressed = true then
    if pyStartswith (transcribe_audio env).1 "Error" = true then
      (transcribe_audio env).2 ++ [Event.errorOut (transcribe_audio env).1]
    else
      if pyStartswith (translate_to_tamil env (transcribe_audio env).1)
          "Translation error" = true then
        (transcribe_audio env).2 ++
          [Event.translateCall (transcribe_audio env).1,
           Event.errorOut (translate_to_tamil env (transcribe_audio env).1)]
      else
        if pyStartswith (text_to_speech env
            (translate_to_tamil env (transcribe_audio env).1))
            "Speech generation error" = true then
          (transcribe_audio env).2 ++
            [Event.translateCall (transcribe_audio env).1,
             Event.ttsCall (translate_to_tamil env (transcribe_audio env).1),
             Event.errorOut (text_to_speech env
               (translate_to_tamil env (transcribe_audio env).1))]
        else
          (transcribe_audio env).2 ++
            [Event.translateCall (transcribe_audio env).1,
             Event.ttsCall (translate_to_tamil env (transcribe_audio env).1),
             Event.audioOut (Sum.inr (env.readFile (text_to_speech env
               (translate_to_tamil env (transcribe_audio env).1)))),
             Event.downloadOut (Sum.inr (env.readFile (text_to_speech env
               (translate_to_tamil env (transcribe_audio env).1))))]
  else []

/-- Embeds `main`'s upload flow of src/app.py lines 84-141: the pipeline
body inside `try:`, with the `finally:` of lines 134-141 unconditionally
removing the request temp file on every exit path (including `st.stop()`,
whose stop exception propagates through the `finally`). -/
def run (env : Env) : List Event :=
  runBody env ++ [Event.unlinkTmp]

end App

namespace AppV2

/-- Embeds `transcribe_audio` of src/appV2.py lines 68-77 (same two-message
guards as app.py). -/
def transcribe_audio (env : Env) : String × List Event :=
  if env.fileExists = false then ("Error: Audio file not found", [])
  else if env.fileSize = 0 then ("Error: Audio file is empty", [])
  else match env.whisper with
    | Except.ok t => (t, [Event.modelTranscribe])
    | Except.error e => ("Error during transcription: " ++ e, [Event.modelTranscribe])

/-- Embeds `translate_to_tamil` of src/appV2.py lines 51-57. -/
def translate_to_tamil (env : Env) (text : String) : String :=
  match env.translate text "ta" with
  | Except.ok t => t
  | Except.error e => "Translation error: " ++ e

/-- Embeds `text_to_speech` of src/appV2.py lines 59-66: in-memory MP3
bytes on success (`Sum.inr`), a tagged error string on exception
(`Sum.inl`), matching the Python value being `bytes` or `str`. -/
def text_to_speech (env : Env) (text : String) : Sum String Bytes :=
  match env.tts text with
  | Except.ok bs => Sum.inr bs
  | Except.error e => Sum.inl ("Speech generation error: " ++ e)

/-- The `try:` body of the Standard tab, src/appV2.py lines 109-141:
each stage guarded by its error-tag check (the synthesis check uses
`isinstance(audio_bytes, str)` before the tag test). -/
def runStandardBody (env : Env) : List Event :=
  if env.buttonPressed = true then
    if pyStartswith (transcribe_audio env).1 "Error" = true then
      (transcribe_audio env).2 ++ [Event.errorOut (transcribe_audio env).1]
    else
      if pyStartswith (translate_to_tamil env (transcribe_audio env).1)
          "Translation error" = true then
        (transcribe_audio env).2 ++
          [Event.translateCall (transcribe_audio env).1,
           Event.errorOut (translate_to_tamil env (transcribe_audio env).1)]
      else
        match text_to_speech env
            (translate_to_tamil env (transcribe_audio env).1) with
        | Sum.inl s =>
          if pyStartswith s "Speech generation error" = true then
            (transcribe_audio env).2 ++
              [Event.translateCall (transcribe_audio env).1,
               Event.ttsCall (translate_to_tamil env (transcribe_audio env).1),
               Event.errorOut s]
          else
            (transcribe_audio env).2 ++
              [Event.translateCall (transcribe_audio env).1,
               Event.ttsCall (translate_to_tamil env (transcribe_audio env).1),
               Event.audioOut (Sum.inl s), Event.downloadOut (Sum.inl s)]
        | Sum.inr bs =>
          (transcribe_audio env).2 ++
            [Event.translateCall (transcribe_audio env).1,
             Event.ttsCall (translate_to_tamil env (transcribe_audio env).1),
             Event.audioOut (Sum.inr bs), Event.downloadOut (Sum.inr bs)]
  else []

/-- Embeds the Standard tab of src/appV2.py lines 100-147: pipeline body in
`try:`, temp file removed in `finally:` (lines 143-147) on every exit path. -/
def runStandard (env : Env) : List Event :=
  runStandardBody env ++ [Event.unlinkTmp]

/-- The `try:` body of the Secure tab, src/appV2.py lines 159-195:
transcribe → translate → synthesize (checked) → encrypt → show key →
download ciphertext. -/
def runSecureBody (env : Env) : List Event :=
  if env.buttonPressed = true then
    if pyStartswith (transcribe_audio env).1 "Error" = true then
      (transcribe_audio env).2 ++ [Event.errorOut (transcribe_audio env).1]
    else
      if pyStartswith (translate_to_tamil env (transcribe_audio env).1)
          "Translation error" = true then
        (transcribe_audio env).2 ++
          [Event.translateCall (transcribe_audio env).1,
           Event.errorOut (translate_to_tamil env (transcribe_audio env).1)]
      else
        match text_to_speech env
            (translate_to_tamil env (transcribe_audio env).1) with
        | Sum.inl s =>
          if pyStartswith s "Speech generation error" = true then
            (transcribe_audio env).2 ++
              [Event.translateCall (transcribe_audio env).1,
               Event.ttsCall (translate_to_tamil env (transcribe_audio env).1),
               Event.errorOut s]
          else
            (transcribe_audio env).2 ++
              [Event.translateCall (transcribe_audio env).1,
               Event.ttsCall (translate_to_tamil env (transcribe_audio env).1),
               Event.encryptCall (Sum.inl s), Event.raisedException]
        | Sum.inr bs =>
          (transcribe_audio env).2 ++
            [Event.translateCall (transcribe_audio env).1,
             Event.ttsCall (translate_to_tamil env (transcribe_audio env).1),
             Event.encryptCall (Sum.inr bs), Event.keyShown,
             Event.downloadOut (Sum.inr (encrypt_file bs env.key))]
  else []

/-- Embeds the Secure tab of src/appV2.py lines 150-201: pipeline body in
`try:`, temp file removed in `finally:` (lines 197-201) on every exit path. -/
def runSecure (env : Env) : List Event :=
  runSecureBody env ++ [Event.unlinkTmp]

end AppV2

namespace AppV3

/-- Embeds `transcribe_audio` of src/appV3.py lines 63-70: a single
combined guard `not os.path.exists(...) or os.path.getsize(...) == 0`
with one message. -/
def transcribe_audio (env : Env) : String × List Event :=
  if env.fileExists = false || env.fileSize == 0 then
    ("Error: Invalid or empty audio file", [])
  else match env.whisper with
    | Except.ok t => (t, [Event.modelTranscribe])
    | Except.error e => ("Error during transcription: " ++ e, [Event.modelTranscribe])

/-- Embeds `translate_text` of src/appV3.py lines 46-52. -/
def translate_text (env : Env) (text lang_code : String) : String :=
  match env.translate text lang_code with
  | Except.ok t => t
  | Except.error e => "Translation error: " ++ e

/-- Embeds `text_to_speech` of src/appV3.py lines 54-61. -/
def text_to_speech (env : Env) (text : String) : Sum String Bytes :=
  match env.tts text with
  | Except.ok bs => Sum.inr bs
  | Except.error e => Sum.inl ("Speech generation error: " ++ e)

/-- Embeds the Standard tab of src/appV3.py lines 99-130: the same guarded
pipeline as appV2's Standard tab, but the temp file created at lines
105-107 is never removed — `main` has no `finally:`/`os.unlink` at all. -/
def runStandard (env : Env) : List Event :=
  if env.buttonPressed = true then
    if pyStartswith (transcribe_audio env).1 "Error" = true then
      (transcribe_audio env).2 ++ [Event.errorOut (transcribe_audio env).1]
    else
      if pyStartswith (translate_text env (transcribe_audio env).1 env.langCode)
          "Translation error" = true then
        (transcribe_audio env).2 ++
          [Event.translateCall (transcribe_audio env).1,
           Event.errorOut (translate_text env (transcribe_audio env).1 env.langCode)]
      else
        match text_to_speech env
            (translate_text env (transcribe_audio env).1 env.langCode) with
        | Sum.inl s =>
          if pyStartswith s "Speech generation error" = true then
            (transcribe_audio env).2 ++
              [Event.translateCall (transcribe_audio env).1,
               Event.ttsCall (translate_text env (transcribe_audio env).1 env.langCode),
               Event.errorOut s]
          else
            (transcribe_audio env).2 ++
              [Event.translateCall (transcribe_audio env).1,
               Event.ttsCall (translate_text env (transcribe_audio env).1 env.langCode),
               Event.audioOut (Sum.inl s), Event.downloadOut (Sum.inl s)]
        | Sum.inr bs =>
          (transcribe_audio env).2 ++
            [Event.translateCall (transcribe_audio env).1,
             Event.ttsCall (translate_text env (transcribe_audio env).1 env.langCode),
             Event.audioOut (Sum.inr bs), Event.downloadOut (Sum.inr bs)]
  else []

/-- Embeds the Secure tab of src/appV3.py lines 132-163: guarded pipeline
plus encryption; again no removal of the temp file on any path. -/
def runSecure (env : Env) : List Event :=
  if env.buttonPressed = true then
    if pyStartswith (transcribe_audio env).1 "Error" = true then
      (transcribe_audio env).2 ++ [Event.errorOut (transcribe_audio env).1]
    else
      if pyStartswith (translate_text env (transcribe_audio env).1 env.langCode)
          "Translation error" = true then
        (transcribe_audio env).2 ++
          [Event.translateCall (transcribe_audio env).1,
           Event.errorOut (translate_text env (transcribe_audio env).1 env.langCode)]
      else
        match text_to_speech env
            (translate_text env (transcribe_audio env).1 env.langCode) with
        | Sum.inl s =>
          if pyStartswith s "Speech generation error" = true then
            (transcribe_audio env).2 ++
              [Event.translateCall (transcribe_audio env).1,
               Event.ttsCall (translate_text env (transcribe_audio env).1 env.langCode),
               Event.errorOut s]
          else
            (transcribe_audio env).2 ++
              [Event.translateCall (transcribe_audio env).1,
               Event.ttsCall (translate_text env (transcribe_audio env).1 env.langCode),
               Event.encryptCall (Sum.inl s), Event.raisedException]
        | Sum.inr bs =>
          (transcribe_audio env).2 ++
            [Event.translateCall (transcribe_audio env).1,
             Event.ttsCall (translate_text env (transcribe_audio env).1 env.langCode),
             Event.encryptCall (Sum.inr bs), Event.keyShown,
             Event.downloadOut (Sum.inr (encrypt_file bs env.key))]
  else []

end AppV3

namespace AppV5

/-- Embeds `transcribe_audio` of src/appV5.py lines 69-76 (identical to
appV3's). -/
def transcribe_audio (env : Env) : String × List Event :=
  if env.fileExists = false || env.fileSize == 0 then
    ("Error: Invalid or empty audio file", [])
  else match env.whisper with
    | Except.ok t => (t, [Event.modelTranscribe])
    | Except.error e => ("Error during transcription: " ++ e, [Event.modelTranscribe])

/-- Embeds `translate_text` of src/appV5.py lines 50-56. -/
def translate_text (env : Env) (text lang_code : String) : String :=
  match env.translate text lang_code with
  | Except.ok t => t
  | Except.error e => "Translation error: " ++ e

/-- Embeds `text_to_speech` of src/appV5.py lines 59-66. -/
def text_to_speech (env : Env) (text : String) : Sum String Bytes :=
  match env.tts text with
  | Except.ok bs => Sum.inr bs
  | Except.error e => Sum.inl ("Speech generation error: " ++ e)

/-- Embeds the Standard tab's upload flow of src/appV5.py lines 176-201:
transcribe and translate are tag-checked, but the synthesis result is
passed to `st.audio`/download with no check (lines 196-198), and the
`os.unlink` of line 201 sits after the button block, so it runs on the
no-button and success paths but is skipped whenever a stage aborts via
`st.stop()`. -/
def runStandardUpload (env : Env) : List Event :=
  if env.buttonPressed = true then
    if pyStartswith (transcribe_audio env).1 "Error" = true then
      (transcribe_audio env).2 ++ [Event.errorOut (transcribe_audio env).1]
    else
      if pyStartswith (translate_text env (transcribe_audio env).1 env.langCode)
          "Translation error" = true then
        (transcribe_audio env).2 ++
          [Event.translateCall (transcribe_audio env).1,
           Event.errorOut (translate_text env (transcribe_audio env).1 env.langCode)]
      else
        match text_to_speech env
            (translate_text env (transcribe_audio env).1 env.langCode) with
        | Sum.inl s =>
          (transcribe_audio env).2 ++
            [Event.translateCall (transcribe_audio env).1,
             Event.ttsCall (translate_text env (transcribe_audio env).1 env.langCode),
             Event.audioOut (Sum.inl s), Event.downloadOut (Sum.inl s),
             Event.unlinkTmp]
        | Sum.inr bs =>
          (transcribe_audio env).2 ++
            [Event.translateCall (transcribe_audio env).1,
             Event.ttsCall (translate_text env (transcribe_audio env).1 env.langCode),
             Event.audioOut (Sum.inr bs), Event.downloadOut (Sum.inr bs),
             Event.unlinkTmp]
  else [Event.unlinkTmp]

/-- Embeds the Standard tab's microphone flow of src/appV5.py lines
203-221: same guarded pipeline over `recorded_audio.wav`, synthesis
unchecked, and no file removal anywhere. -/
def runStandardMic (env : Env) : List Event :=
  if env.buttonPressed = true then
    if pyStartswith (transcribe_audio env).1 "Error" = true then
      (transcribe_audio env).2 ++ [Event.errorOut (transcribe_audio env).1]
    else
      if pyStartswith (translate_text env (transcribe_audio env).1 env.langCode)
          "Translation error" = true then
        (transcribe_audio env).2 ++
          [Event.translateCall (transcribe_audio env).1,
           Event.errorOut (translate_text env (transcribe_audio env).1 env.langCode)]
      else
        match text_to_speech env
            (translate_text env (transcribe_audio env).1 env.langCode) with
        | Sum.inl s =>
          (transcribe_audio env).2 ++
            [Event.translateCall (transcribe_audio env).1,
             Event.ttsCall (translate_text env (transcribe_audio env).1 env.langCode),
             Event.audioOut (Sum.inl s), Event.downloadOut (Sum.inl s)]
        | Sum.inr bs =>
          (transcribe_audio env).2 ++
            [Event.translateCall (transcribe_audio env).1,
             Event.ttsCall (translate_text env (transcribe_audio env).1 env.langCode),
             Event.audioOut (Sum.inr bs), Event.downloadOut (Sum.inr bs)]
  else []

/-- Embeds the Secure tab of src/appV5.py lines 227-273: transcribe and
translate tag-checked, synthesis unchecked, and its result handed straight
to `encrypt_file` (line 255).  When synthesis produced an error string,
`Fernet.encrypt` on a `str` raises an uncaught `TypeError`, ending the run;
then neither the key display nor the `os.unlink` of line 273 is reached.
On success: encrypt, show key, download ciphertext, unlink. -/
def runSecure (env : Env) : List Event :=
  if env.buttonPressed = true then
    if pyStartswith (transcribe_audio env).1 "Error" = true then
      (transcribe_audio env).2 ++ [Event.errorOut (transcribe_audio env).1]
    else
      if pyStartswith (translate_text env (transcribe_audio env).1 env.langCode)
          "Translation error" = true then
        (transcribe_audio env).2 ++
          [Event.translateCall (transcribe_audio env).1,
           Event.errorOut (translate_text env (transcribe_audio env).1 env.langCode)]
      else
        match text_to_speech env
            (translate_text env (transcribe_audio env).1 env.langCode) with
        | Sum.inl s =>
          (transcribe_audio env).2 ++
            [Event.translateCall (transcribe_audio env).1,
             Event.ttsCall (translate_text env (transcribe_audio env).1 env.langCode),
             Event.encryptCall (Sum.inl s), Event.raisedException]
        | Sum.inr bs =>
          (transcribe_audio env).2 ++
            [Event.translateCall (transcribe_audio env).1,
             Event.ttsCall (translate_text env (transcribe_audio env).1 env.langCode),
             Event.encryptCall (Sum.inr bs), Event.keyShown,
             Event.downloadOut (Sum.inr (encrypt_file bs env.key)),
             Event.unlinkTmp]
  else []

end AppV5

/-! ## Concrete runs used as witnesses and counterexamples -/

/-- A translation oracle that always succeeds. -/
def okTranslate : String → String → Except String String :=
  fun _ _ => Except.ok "vanakkam"

/-- A run in which every external capability succeeds. -/
def envOk : Env :=
  ⟨true, true, 5, Except.ok "hello there", okTranslate,
   fun _ => Except.ok [9, 9], fun _ => Except.ok "speech.mp3",
   fun _ => [1, 2, 3], "ta", List.replicate 32 0⟩

/-- A run whose speech-synthesis call raises. -/
def envTtsFail : Env :=
  ⟨true, true, 5, Except.ok "hello there", okTranslate,
   fun _ => Except.error "gtts failed", fun _ => Except.error "gtts failed",
   fun _ => [1, 2, 3], "ta", List.replicate 32 0⟩

/-- A run whose translation call raises. -/
def envTranslateFail : Env :=
  ⟨true, true, 5, Except.ok "hello there",
   fun _ _ => Except.error "network down",
   fun _ => Except.ok [9, 9], fun _ => Except.ok "speech.mp3",
   fun _ => [1, 2, 3], "ta", List.replicate 32 0⟩

/-- A run on an uploaded zero-byte file. -/
def envEmptyFile : Env :=
  ⟨true, true, 0, Except.ok "hello there", okTranslate,
   fun _ => Except.ok [9, 9], fun _ => Except.ok "speech.mp3",
   fun _ => [1, 2, 3], "ta", List.replicate 32 0⟩

/-- A run on a missing audio file. -/
def envMissingFile : Env :=
  ⟨true, false, 0, Except.ok "hello there", okTranslate,
   fun _ => Except.ok [9, 9], fun _ => Except.ok "speech.mp3",
   fun _ => [1, 2, 3], "ta", List.replicate 32 0⟩

/-- A run in which the recognition model returns an empty transcript. -/
def envEmptyTranscript : Env :=
  ⟨true, true, 1, Except.ok "", okTranslate,
   fun _ => Except.ok [9, 9], fun _ => Except.ok "speech.mp3",
   fun _ => [1, 2, 3], "ta", List.replicate 32 0⟩

/-- A generated Fernet key used in the crypto witnesses. -/
def kW : Bytes := List.replicate 32 3

/-- A second, distinct generated Fernet key. -/
def kW2 : Bytes := List.replicate 32 4

/-- A small non-empty payload used in the crypto witnesses. -/
def pW : Bytes := [104, 105]

/-! ## Security-stage theorems -/

theorem validKey_length {k : Bytes} (hk : validKey k = true) : k.length = 32 := by
  simp [validKey] at hk
  exact hk.1

theorem fernet_roundtrip (p k : Bytes) (hk : validKey k = true) :
    decrypt_file (encrypt_file p k) k = some p := by
  have h32 := validKey_length hk
  unfold decrypt_file encrypt_file fernetVerify fernetToken
  rw [if_pos hk]
  have hlen : ((k ++ p) ++ (k ++ p)).length = (k ++ p).length + (k ++ p).length :=
    List.length_append _ _
  rw [hlen]
  have hmod : ((k ++ p).length + (k ++ p).length) % 2 = 0 := by omega
  have hdiv : ((k ++ p).length + (k ++ p).length) / 2 = (k ++ p).length := by omega
  rw [if_pos hmod, hdiv]
  simp only [List.take_left, List.drop_left]
  rw [if_pos ⟨trivial, List.take_left' h32⟩]
  rw [List.drop_left' h32]

theorem set_ne_of_getD_ne {l : Bytes} {i a : Nat} (hi : i < l.length)
    (ha : a ≠ l.getD i 0) : l.set i a ≠ l := by
  intro h
  apply ha
  have := congrArg (fun t => List.getD t i 0) h
  simpa [List.getD, List.getElem?_set_self, hi] using this

theorem xor_pow_ne (b j : Nat) : b ^^^ 2 ^ j ≠ b := by
  intro h
  have hj : (2 : Nat) ^ j ≠ 0 := by positivity
  apply hj
  have h2 : b ^^^ (b ^^^ 2 ^ j) = b ^^^ b := by rw [h]
  rw [← Nat.xor_assoc, Nat.xor_self, Nat.zero_xor] at h2
  exact h2

/-- C1: for every non-empty byte payload `p` and every key `k` produced by
`generate_key()`, `decrypt_file(encrypt_file(p, k), k)` returns `p` — the
encrypt/decrypt pair of appV2/appV3/appV5 is a round-trip identity. -/
theorem C1_encrypt_decrypt_roundtrip (p k : Bytes) (_hp : p ≠ [])
    (hk : validKey k = true) :
    decrypt_file (encrypt_file p k) k = some p :=
  fernet_roundtrip p k hk

theorem C1_witness :
    pW ≠ [] ∧ validKey kW = true ∧
      decrypt_file (encrypt_file pW kW) kW = some pW :=
  ⟨by decide, by decide, C1_encrypt_decrypt_roundtrip pW kW (by decide) (by decide)⟩

/-- C2: flipping any single bit of `encrypt_file(p, k)` before decryption
makes `decrypt_file` return the failure sentinel `none`, never a plaintext
presented as valid (tamper evidence of the authenticated scheme). -/
theorem C2_tamper_detected (p k : Bytes) (hk : validKey k = true) (i j : Nat)
    (hi : i < (encrypt_file p k).length) (_hj : j < 8) :
    decrypt_file (flipBit (encrypt_file p k) i j) k = none := by
  unfold decrypt_file encrypt_file fernetVerify fernetToken flipBit
  unfold encrypt_file fernetToken at hi
  rw [if_pos hk]
  set b := k ++ p with hb
  set c := (((b ++ b).getD i 0) ^^^ (2 ^ j)) with hc
  have hilen : i < b.length + b.length := by
    simpa using hi
  have hlen : ((b ++ b).set i c).length = b.length + b.length := by
    simp [List.length_set]
  rw [hlen]
  have hmod : (b.length + b.length) % 2 = 0 := by omega
  have hdiv : (b.length + b.length) / 2 = b.length := by omega
  rw [if_pos hmod, hdiv]
  rw [if_neg]
  intro hcond
  rcases Nat.lt_or_ge i b.length with hcase | hcase
  · have hset : (b ++ b).set i c = (b.set i c) ++ b := List.set_append_left _ _ hcase
    have htake : ((b ++ b).set i c).take b.length = b.set i c := by
      rw [hset]
      exact List.take_left' (by simp [List.length_set])
    have hdrop : ((b ++ b).set i c).drop b.length = b := by
      rw [hset]
      exact List.drop_left' (by simp [List.length_set])
    have hcne : c ≠ b.getD i 0 := by
      have : (b ++ b).getD i 0 = b.getD i 0 := by
        simp [List.getD, List.getElem?_append_left hcase]
      rw [hc, this]
      exact xor_pow_ne _ _
    have h1 := hcond.1
    rw [htake, hdrop] at h1
    exact set_ne_of_getD_ne hcase hcne h1
  · have hset : (b ++ b).set i c = b ++ (b.set (i - b.length) c) :=
      List.set_append_right _ _ hcase
    have hi2 : i - b.length < b.length := by omega
    have htake : ((b ++ b).set i c).take b.length = b := by
      rw [hset]
      exact List.take_left' rfl
    have hdrop : ((b ++ b).set i c).drop b.length = b.set (i - b.length) c := by
      rw [hset]
      exact List.drop_left' rfl
    have hcne : c ≠ b.getD (i - b.length) 0 := by
      have : (b ++ b).getD i 0 = b.getD (i - b.length) 0 := by
        simp [List.getD, List.getElem?_append_right hcase]
      rw [hc, this]
      exact xor_pow_ne _ _
    have h1 := hcond.1
    rw [htake, hdrop] at h1
    exact set_ne_of_getD_ne hi2 hcne h1.symm

theorem C2_witness :
    decrypt_file (flipBit (encrypt_file pW kW) 0 0) kW = none :=
  C2_tamper_detected pW kW (by decide) 0 0 (by decide) (by decide)

/-- C3: decrypting with a different generated key than the one used to
encrypt fails with the sentinel `none`, for every payload and every pair of
distinct keys. -/
theorem C3_wrong_key_fails (p k1 k2 : Bytes) (h1 : validKey k1 = true)
    (h2 : validKey k2 = true) (hne : k1 ≠ k2) :
    decrypt_file (encrypt_file p k1) k2 = none := by
  have h32 := validKey_length h1
  unfold decrypt_file encrypt_file fernetVerify fernetToken
  rw [if_pos h2]
  have hlen : ((k1 ++ p) ++ (k1 ++ p)).length = (k1 ++ p).length + (k1 ++ p).length :=
    List.length_append _ _
  rw [hlen]
  have hmod : ((k1 ++ p).length + (k1 ++ p).length) % 2 = 0 := by omega
  have hdiv : ((k1 ++ p).length + (k1 ++ p).length) / 2 = (k1 ++ p).length := by omega
  rw [if_pos hmod, hdiv]
  simp only [List.take_left, List.drop_left]
  rw [if_neg]
  intro hcond
  exact hne (by rw [← List.take_left' h32, hcond.2])

theorem C3_witness :
    decrypt_file (encrypt_file pW kW) kW2 = none :=
  C3_wrong_key_fails pW kW kW2 (by decide) (by decide) (by decide)

/-- C8: `decrypt_file` is total — on every ciphertext byte string and every
key byte string (malformed keys included) it returns either a decrypted
plaintext (`some p`) or the sentinel `none`; in particular a non-key-shaped
key byte string always yields `none`, never an escaping exception. -/
theorem C8_decrypt_total (data key : Bytes) :
    (decrypt_file data key = none ∨ ∃ p, decrypt_file data key = some p) ∧
    (validKey key = false → decrypt_file data key = none) := by
  constructor
  · cases h : decrypt_file data key
    · exact Or.inl rfl
    · exact Or.inr ⟨_, rfl⟩
  · intro h
    simp [decrypt_file, fernetVerify, h]

theorem C8_witness : decrypt_file [1, 2] [1, 2, 3] = none :=
  (C8_decrypt_total [1, 2] [1, 2, 3]).2 (by decide)

/-- C10: in appV5's decrypt interface, success is decided by Python
truthiness of the decrypted bytes, so a valid encryption of the empty byte
string decrypts successfully (`some []`) yet the interface reports
decryption failure — indistinguishable from a wrong key or corrupted
file at the public interface. -/
theorem C10_empty_plaintext_reports_failure (k : Bytes)
    (hk : validKey k = true) :
    decrypt_file (encrypt_file [] k) k = some [] ∧
    appV5_decrypt_reports_success (encrypt_file [] k) k = false := by
  have h := fernet_roundtrip [] k hk
  refine ⟨h, ?_⟩
  simp [appV5_decrypt_reports_success, h]

theorem C10_witness :
    decrypt_file (encrypt_file [] kW) kW = some [] ∧
    appV5_decrypt_reports_success (encrypt_file [] kW) kW = false :=
  C10_empty_plaintext_reports_failure kW (by decide)

/-! ## Pipeline theorems -/

theorem pyStartswith_append (s p e : String)
    (h : pyStartswith s p = true) : pyStartswith (s ++ e) p = true := by
  unfold pyStartswith at h ⊢
  rw [decide_eq_true_iff] at h ⊢
  have hlen : p.data.length ≤ s.data.length := by
    have hmin := congrArg List.length h
    rw [List.length_take] at hmin
    omega
  rw [String.data_append, List.take_append_of_le_length hlen]
  exact h

theorem app_transcribe_events (env : Env) :
    (App.transcribe_audio env).2 = [] ∨
    (App.transcribe_audio env).2 = [Event.modelTranscribe] := by
  unfold App.transcribe_audio
  by_cases hE : env.fileExists = false <;> by_cases hS : env.fileSize = 0 <;>
    cases hw : env.whisper <;> simp [hE, hS, hw]

theorem appV2_transcribe_events (env : Env) :
    (AppV2.transcribe_audio env).2 = [] ∨
    (AppV2.transcribe_audio env).2 = [Event.modelTranscribe] := by
  unfold AppV2.transcribe_audio
  by_cases hE : env.fileExists = false <;> by_cases hS : env.fileSize = 0 <;>
    cases hw : env.whisper <;> simp [hE, hS, hw]

theorem appV3_transcribe_events (env : Env) :
    (AppV3.transcribe_audio env).2 = [] ∨
    (AppV3.transcribe_audio env).2 = [Event.modelTranscribe] := by
  unfold AppV3.transcribe_audio
  by_cases hE : env.fileExists = false <;> by_cases hS : env.fileSize = 0 <;>
    cases hw : env.whisper <;> simp [hE, hS, hw]

theorem appV5_transcribe_events (env : Env) :
    (AppV5.transcribe_audio env).2 = [] ∨
    (AppV5.transcribe_audio env).2 = [Event.modelTranscribe] := by
  unfold AppV5.transcribe_audio
  by_cases hE : env.fileExists = false <;> by_cases hS : env.fileSize = 0 <;>
    cases hw : env.whisper <;> simp [hE, hS, hw]

theorem app_transcribe_invalid (env : Env)
    (h : env.fileExists = false ∨ env.fileSize = 0) :
    (App.transcribe_audio env).2 = [] ∧
    ((App.transcribe_audio env).1 = "Error: Audio file not found" ∨
     (App.transcribe_audio env).1 = "Error: Audio file is empty") := by
  unfold App.transcribe_audio
  by_cases hE : env.fileExists = false
  · simp [hE]
  · rcases h with h | h
    · exact absurd h hE
    · simp [hE, h]

theorem appV2_transcribe_invalid (env : Env)
    (h : env.fileExists = false ∨ env.fileSize = 0) :
    (AppV2.transcribe_audio env).2 = [] ∧
    ((AppV2.transcribe_audio env).1 = "Error: Audio file not found" ∨
     (AppV2.transcribe_audio env).1 = "Error: Audio file is empty") := by
  unfold AppV2.transcribe_audio
  by_cases hE : env.fileExists = false
  · simp [hE]
  · rcases h with h | h
    · exact absurd h hE
    · simp [hE, h]

theorem appV3_transcribe_invalid (env : Env)
    (h : env.fileExists = false ∨ env.fileSize = 0) :
    AppV3.transcribe_audio env = ("Error: Invalid or empty audio file", []) := by
  unfold AppV3.transcribe_audio
  rcases h with h | h <;> simp [h]

theorem appV5_transcribe_invalid (env : Env)
    (h : env.fileExists = false ∨ env.fileSize = 0) :
    AppV5.transcribe_audio env = ("Error: Invalid or empty audio file", []) := by
  unfold AppV5.transcribe_audio
  rcases h with h | h <;> simp [h]

theorem app_transcribe_invalid_tag (env : Env)
    (h : env.fileExists = false ∨ env.fileSize = 0) :
    pyStartswith (App.transcribe_audio env).1 "Error" = true := by
  rcases (app_transcribe_invalid env h).2 with he | he <;> rw [he] <;> decide

theorem appV2_transcribe_invalid_tag (env : Env)
    (h : env.fileExists = false ∨ env.fileSize = 0) :
    pyStartswith (AppV2.transcribe_audio env).1 "Error" = true := by
  rcases (appV2_transcribe_invalid env h).2 with he | he <;> rw [he] <;> decide

theorem appV3_transcribe_invalid_tag (env : Env)
    (h : env.fileExists = false ∨ env.fileSize = 0) :
    pyStartswith (AppV3.transcribe_audio env).1 "Error" = true := by
  rw [appV3_transcribe_invalid env h]
  decide

theorem appV5_transcribe_invalid_tag (env : Env)
    (h : env.fileExists = false ∨ env.fileSize = 0) :
    pyStartswith (AppV5.transcribe_audio env).1 "Error" = true := by
  rw [appV5_transcribe_invalid env h]
  decide

theorem app_run_shortCircuit :
    shortCircuits (fun env => (App.transcribe_audio env).1)
      (fun env => App.translate_to_tamil env (App.transcribe_audio env).1)
      App.run := by
  intro env
  constructor
  · intro h1
    refine ⟨?_, ?_, ?_⟩ <;>
      rcases app_transcribe_events env with he | he <;>
        cases hb : env.buttonPressed <;>
          simp [App.run, App.runBody, callsTranslate, callsTts, callsEncrypt,
            hb, h1, he]
  · intro h2
    cases hb : env.buttonPressed
    · constructor <;>
        simp [App.run, App.runBody, callsTts, callsEncrypt, hb]
    · cases h1 : pyStartswith (App.transcribe_audio env).1 "Error" <;>
        rcases app_transcribe_events env with he | he <;>
          constructor <;>
            simp [App.run, App.runBody, callsTts, callsEncrypt, hb, h1, h2, he]

theorem appV2_runStandard_shortCircuit :
    shortCircuits (fun env => (AppV2.transcribe_audio env).1)
      (fun env => AppV2.translate_to_tamil env (AppV2.transcribe_audio env).1)
      AppV2.runStandard := by
  intro env
  constructor
  · intro h1
    refine ⟨?_, ?_, ?_⟩ <;>
      rcases appV2_transcribe_events env with he | he <;>
        cases hb : env.buttonPressed <;>
          simp [AppV2.runStandard, AppV2.runStandardBody, callsTranslate,
            callsTts, callsEncrypt, hb, h1, he]
  · intro h2
    cases hb : env.buttonPressed
    · constructor <;>
        simp [AppV2.runStandard, AppV2.runStandardBody, callsTts, callsEncrypt, hb]
    · cases h1 : pyStartswith (AppV2.transcribe_audio env).1 "Error" <;>
        rcases appV2_transcribe_events env with he | he <;>
          constructor <;>
            simp [AppV2.runStandard, AppV2.runStandardBody, callsTts,
              callsEncrypt, hb, h1, h2, he]

theorem appV2_runSecure_shortCircuit :
    shortCircuits (fun env => (AppV2.transcribe_audio env).1)
      (fun env => AppV2.translate_to_tamil env (AppV2.transcribe_audio env).1)
      AppV2.runSecure := by
  intro env
  constructor
  · intro h1
    refine ⟨?_, ?_, ?_⟩ <;>
      rcases appV2_transcribe_events env with he | he <;>
        cases hb : env.buttonPressed <;>
          simp [AppV2.runSecure, AppV2.runSecureBody, callsTranslate,
            callsTts, callsEncrypt, hb, h1, he]
  · intro h2
    cases hb : env.buttonPressed
    · constructor <;>
        simp [AppV2.runSecure, AppV2.runSecureBody, callsTts, callsEncrypt, hb]
    · cases h1 : pyStartswith (AppV2.transcribe_audio env).1 "Error" <;>
        rcases appV2_transcribe_events env with he | he <;>
          constructor <;>
            simp [AppV2.runSecure, AppV2.runSecureBody, callsTts,
              callsEncrypt, hb, h1, h2, he]

theorem appV3_runStandard_shortCircuit :
    shortCircuits (fun env => (AppV3.transcribe_audio env).1)
      (fun env => AppV3.translate_text env (AppV3.transcribe_audio env).1 env.langCode)
      AppV3.runStandard := by
  intro env
  constructor
  · intro h1
    refine ⟨?_, ?_, ?_⟩ <;>
      rcases appV3_transcribe_events env with he | he <;>
        cases hb : env.buttonPressed <;>
          simp [AppV3.runStandard, callsTranslate, callsTts, callsEncrypt,
            hb, h1, he]
  · intro h2
    cases hb : env.buttonPressed
    · constructor <;> simp [AppV3.runStandard, callsTts, callsEncrypt, hb]
    · cases h1 : pyStartswith (AppV3.transcribe_audio env).1 "Error" <;>
        rcases appV3_transcribe_events env with he | he <;>
          constructor <;>
            simp [AppV3.runStandard, callsTts, callsEncrypt, hb, h1, h2, he]

theorem appV3_runSecure_shortCircuit :
    shortCircuits (fun env => (AppV3.transcribe_audio env).1)
      (fun env => AppV3.translate_text env (AppV3.transcribe_audio env).1 env.langCode)
      AppV3.runSecure := by
  intro env
  constructor
  · intro h1
    refine ⟨?_, ?_, ?_⟩ <;>
      rcases appV3_transcribe_events env with he | he <;>
        cases hb : env.buttonPressed <;>
          simp [AppV3.runSecure, callsTranslate, callsTts, callsEncrypt,
            hb, h1, he]
  · intro h2
    cases hb : env.buttonPressed
    · constructor <;> simp [AppV3.runSecure, callsTts, callsEncrypt, hb]
    · cases h1 : pyStartswith (AppV3.transcribe_audio env).1 "Error" <;>
        rcases appV3_transcribe_events env with he | he <;>
          constructor <;>
            simp [AppV3.runSecure, callsTts, callsEncrypt, hb, h1, h2, he]

theorem appV5_runStandardUpload_shortCircuit :
    shortCircuits (fun env => (AppV5.transcribe_audio env).1)
      (fun env => AppV5.translate_text env (AppV5.transcribe_audio env).1 env.langCode)
      AppV5.runStandardUpload := by
  intro env
  constructor
  · intro h1
    refine ⟨?_, ?_, ?_⟩ <;>
      rcases appV5_transcribe_events env with he | he <;>
        cases hb : env.buttonPressed <;>
          simp [AppV5.runStandardUpload, callsTranslate, callsTts, callsEncrypt,
            hb, h1, he]
  · intro h2
    cases hb : env.buttonPressed
    · constructor <;> simp [AppV5.runStandardUpload, callsTts, callsEncrypt, hb]
    · cases h1 : pyStartswith (AppV5.transcribe_audio env).1 "Error" <;>
        rcases appV5_transcribe_events env with he | he <;>
          constructor <;>
            simp [AppV5.runStandardUpload, callsTts, callsEncrypt, hb, h1, h2, he]

theorem appV5_runStandardMic_shortCircuit :
    shortCircuits (fun env => (AppV5.transcribe_audio env).1)
      (fun env => AppV5.translate_text env (AppV5.transcribe_audio env).1 env.langCode)
      AppV5.runStandardMic := by
  intro env
  constructor
  · intro h1
    refine ⟨?_, ?_, ?_⟩ <;>
      rcases appV5_transcribe_events env with he | he <;>
        cases hb : env.buttonPressed <;>
          simp [AppV5.runStandardMic, callsTranslate, callsTts, callsEncrypt,
            hb, h1, he]
  · intro h2
    cases hb : env.buttonPressed
    · constructor <;> simp [AppV5.runStandardMic, callsTts, callsEncrypt, hb]
    · cases h1 : pyStartswith (AppV5.transcribe_audio env).1 "Error" <;>
        rcases appV5_transcribe_events env with he | he <;>
          constructor <;>
            simp [AppV5.runStandardMic, callsTts, callsEncrypt, hb, h1, h2, he]

theorem appV5_runSecure_shortCircuit :
    shortCircuits (fun env => (AppV5.transcribe_audio env).1)
      (fun env => AppV5.translate_text env (AppV5.transcribe_audio env).1 env.langCode)
      AppV5.runSecure := by
  intro env
  constructor
  · intro h1
    refine ⟨?_, ?_, ?_⟩ <;>
      rcases appV5_transcribe_events env with he | he <;>
        cases hb : env.buttonPressed <;>
          simp [AppV5.runSecure, callsTranslate, callsTts, callsEncrypt,
            hb, h1, he]
  · intro h2
    cases hb : env.buttonPressed
    · constructor <;> simp [AppV5.runSecure, callsTts, callsEncrypt, hb]
    · cases h1 : pyStartswith (AppV5.transcribe_audio env).1 "Error" <;>
        rcases appV5_transcribe_events env with he | he <;>
          constructor <;>
            simp [AppV5.runSecure, callsTts, callsEncrypt, hb, h1, h2, he]

/-- C5: in every variant and every pipeline run, once a stage returns an
error-tagged result the remaining stages are never invoked — an
"Error"-tagged transcription means the translation wrapper
(`translate_text`/`translate_to_tamil`) is never called, and a
"Translation error"-tagged translation means `text_to_speech` (and, in
secure mode, `encrypt_file`) is never called. -/
theorem C5_error_short_circuits :
    shortCircuits (fun env => (App.transcribe_audio env).1)
      (fun env => App.translate_to_tamil env (App.transcribe_audio env).1)
      App.run ∧
    shortCircuits (fun env => (AppV2.transcribe_audio env).1)
      (fun env => AppV2.translate_to_tamil env (AppV2.transcribe_audio env).1)
      AppV2.runStandard ∧
    shortCircuits (fun env => (AppV2.transcribe_audio env).1)
      (fun env => AppV2.translate_to_tamil env (AppV2.transcribe_audio env).1)
      AppV2.runSecure ∧
    shortCircuits (fun env => (AppV3.transcribe_audio env).1)
      (fun env => AppV3.translate_text env (AppV3.transcribe_audio env).1 env.langCode)
      AppV3.runStandard ∧
    shortCircuits (fun env => (AppV3.transcribe_audio env).1)
      (fun env => AppV3.translate_text env (AppV3.transcribe_audio env).1 env.langCode)
      AppV3.runSecure ∧
    shortCircuits (fun env => (AppV5.transcribe_audio env).1)
      (fun env => AppV5.translate_text env (AppV5.transcribe_audio env).1 env.langCode)
      AppV5.runStandardUpload ∧
    shortCircuits (fun env => (AppV5.transcribe_audio env).1)
      (fun env => AppV5.translate_text env (AppV5.transcribe_audio env).1 env.langCode)
      AppV5.runStandardMic ∧
    shortCircuits (fun env => (AppV5.transcribe_audio env).1)
      (fun env => AppV5.translate_text env (AppV5.transcribe_audio env).1 env.langCode)
      AppV5.runSecure :=
  ⟨app_run_shortCircuit, appV2_runStandard_shortCircuit,
   appV2_runSecure_shortCircuit, appV3_runStandard_shortCircuit,
   appV3_runSecure_shortCircuit, appV5_runStandardUpload_shortCircuit,
   appV5_runStandardMic_shortCircuit, appV5_runSecure_shortCircuit⟩

theorem C5_witness :
    callsTranslate (AppV3.runStandard envEmptyFile) = false ∧
    callsTts (AppV5.runSecure envTranslateFail) = false := by
  constructor
  · exact ((C5_error_short_circuits.2.2.2.1 envEmptyFile).1 (by decide)).1
  · exact ((C5_error_short_circuits.2.2.2.2.2.2.2 envTranslateFail).2 (by decide)).1

/-- C6 counterexample: the claim asserts that every variant returns exactly
"Error: Invalid or empty audio file" on a missing or zero-size file, but
appV2's `transcribe_audio` (like app.py's) returns
"Error: Audio file is empty" on a zero-size file. -/
theorem C6_counterexample :
    envEmptyFile.fileExists = true ∧ envEmptyFile.fileSize = 0 ∧
    (AppV2.transcribe_audio envEmptyFile).1 = "Error: Audio file is empty" ∧
    ¬ (AppV2.transcribe_audio envEmptyFile).1 = "Error: Invalid or empty audio file" := by
  decide

/-- C6 (amended): on a missing or zero-size audio file, appV3 and appV5
return exactly "Error: Invalid or empty audio file" while app.py and appV2
return "Error: Audio file not found" or "Error: Audio file is empty"; in
every variant the recognition model is not invoked (no `modelTranscribe`
event), and neither translation nor synthesis is invoked in any pipeline
run for that request. -/
theorem C6_invalid_audio_guard (env : Env)
    (h : env.fileExists = false ∨ env.fileSize = 0) :
    AppV3.transcribe_audio env = ("Error: Invalid or empty audio file", []) ∧
    AppV5.transcribe_audio env = ("Error: Invalid or empty audio file", []) ∧
    ((App.transcribe_audio env).2 = [] ∧
      ((App.transcribe_audio env).1 = "Error: Audio file not found" ∨
       (App.transcribe_audio env).1 = "Error: Audio file is empty")) ∧
    ((AppV2.transcribe_audio env).2 = [] ∧
      ((AppV2.transcribe_audio env).1 = "Error: Audio file not found" ∨
       (AppV2.transcribe_audio env).1 = "Error: Audio file is empty")) ∧
    (callsTranslate (App.run env) = false ∧ callsTts (App.run env) = false) ∧
    (callsTranslate (AppV2.runStandard env) = false ∧
      callsTts (AppV2.runStandard env) = false) ∧
    (callsTranslate (AppV2.runSecure env) = false ∧
      callsTts (AppV2.runSecure env) = false) ∧
    (callsTranslate (AppV3.runStandard env) = false ∧
      callsTts (AppV3.runStandard env) = false) ∧
    (callsTranslate (AppV3.runSecure env) = false ∧
      callsTts (AppV3.runSecure env) = false) ∧
    (callsTranslate (AppV5.runStandardUpload env) = false ∧
      callsTts (AppV5.runStandardUpload env) = false) ∧
    (callsTranslate (AppV5.runStandardMic env) = false ∧
      callsTts (AppV5.runStandardMic env) = false) ∧
    (callsTranslate (AppV5.runSecure env) = false ∧
      callsTts (AppV5.runSecure env) = false) := by
  refine ⟨appV3_transcribe_invalid env h, appV5_transcribe_invalid env h,
    app_transcribe_invalid env h, appV2_transcribe_invalid env h,
    ?_, ?_, ?_, ?_, ?_, ?_, ?_, ?_⟩
  · have hc := (app_run_shortCircuit env).1 (app_transcribe_invalid_tag env h)
    exact ⟨hc.1, hc.2.1⟩
  · have hc := (appV2_runStandard_shortCircuit env).1 (appV2_transcribe_invalid_tag env h)
    exact ⟨hc.1, hc.2.1⟩
  · have hc := (appV2_runSecure_shortCircuit env).1 (appV2_transcribe_invalid_tag env h)
    exact ⟨hc.1, hc.2.1⟩
  · have hc := (appV3_runStandard_shortCircuit env).1 (appV3_transcribe_invalid_tag env h)
    exact ⟨hc.1, hc.2.1⟩
  · have hc := (appV3_runSecure_shortCircuit env).1 (appV3_transcribe_invalid_tag env h)
    exact ⟨hc.1, hc.2.1⟩
  · have hc := (appV5_runStandardUpload_shortCircuit env).1 (appV5_transcribe_invalid_tag env h)
    exact ⟨hc.1, hc.2.1⟩
  · have hc := (appV5_runStandardMic_shortCircuit env).1 (appV5_transcribe_invalid_tag env h)
    exact ⟨hc.1, hc.2.1⟩
  · have hc := (appV5_runSecure_shortCircuit env).1 (appV5_transcribe_invalid_tag env h)
    exact ⟨hc.1, hc.2.1⟩

theorem C6_witness :
    AppV3.transcribe_audio envMissingFile = ("Error: Invalid or empty audio file", []) :=
  (C6_invalid_audio_guard envMissingFile (Or.inl (by decide))).1

/-- C4: app.py and appV2 remove the request temp file on every exit path
(it sits in a `finally:`), but appV3 never removes it on any path, and
appV5's upload and secure flows skip the removal whenever a stage aborts
via `st.stop()` — refuting removal "on every exit path in every variant".
`envEmptyFile` is the failing input: a zero-size upload with the button
pressed. -/
theorem C4_cleanup_divergence :
    (∀ env : Env, removesTmp (App.run env) = true) ∧
    (∀ env : Env, removesTmp (AppV2.runStandard env) = true) ∧
    (∀ env : Env, removesTmp (AppV2.runSecure env) = true) ∧
    (∀ env : Env, removesTmp (AppV3.runStandard env) = false) ∧
    (∀ env : Env, removesTmp (AppV3.runSecure env) = false) ∧
    (envEmptyFile.buttonPressed = true ∧
     removesTmp (AppV5.runStandardUpload envEmptyFile) = false ∧
     removesTmp (AppV5.runSecure envEmptyFile) = false) := by
  refine ⟨?_, ?_, ?_, ?_, ?_, by decide, by decide, by decide⟩
  · intro env
    simp [App.run, removesTmp]
  · intro env
    simp [AppV2.runStandard, removesTmp]
  · intro env
    simp [AppV2.runSecure, removesTmp]
  · intro env
    rcases appV3_transcribe_events env with he | he <;>
      simp only [AppV3.runStandard] <;>
        (repeat' split) <;>
          simp [removesTmp, he]
  · intro env
    rcases appV3_transcribe_events env with he | he <;>
      simp only [AppV3.runSecure] <;>
        (repeat' split) <;>
          simp [removesTmp, he]

/-- C7: appV2 and appV3 never hand a "Speech generation error" string to
`encrypt_file` (their `isinstance` + tag check aborts first), but appV5
passes the synthesis stage's error-tagged string straight to
`encrypt_file` in the secure flow and to `st.audio` and the download
output in the standard upload flow — refuting the claim's "never". -/
theorem C7_tts_error_forwarding :
    (∀ env : Env, encryptGetsErrString (AppV2.runSecure env) = false) ∧
    (∀ env : Env, encryptGetsErrString (AppV3.runSecure env) = false) ∧
    encryptGetsErrString (AppV5.runSecure envTtsFail) = true ∧
    audioGetsErrString (AppV5.runStandardUpload envTtsFail) = true ∧
    downloadGetsErrString (AppV5.runStandardUpload envTtsFail) = true := by
  refine ⟨?_, ?_, by decide, by decide, by decide⟩
  · intro env
    rcases appV2_transcribe_events env with he | he <;>
      simp only [AppV2.runSecure, AppV2.runSecureBody] <;>
        (repeat' split) <;>
          simp_all [encryptGetsErrString]
  · intro env
    rcases appV3_transcribe_events env with he | he <;>
      simp only [AppV3.runSecure] <;>
        (repeat' split) <;>
          simp_all [encryptGetsErrString]

/-- C9 counterexample: when the recognition model yields an empty
transcript for an existing, non-empty audio file, `transcribe_audio`
returns the empty string — a success result that is neither non-empty nor
"Error"-tagged. -/
theorem C9_counterexample :
    envEmptyTranscript.fileExists = true ∧ envEmptyTranscript.fileSize ≠ 0 ∧
    (AppV3.transcribe_audio envEmptyTranscript).1 = "" ∧
    pyStartswith (AppV3.transcribe_audio envEmptyTranscript).1 "Error" = false := by
  decide

/-- C9 (amended): for every existing, non-empty audio input file,
`transcribe_audio` returns either the recognition model's transcript
verbatim or an "Error"-tagged string; the verbatim transcript may itself
be empty, so an empty string can be returned as a success result. -/
theorem C9_transcribe_result_shape (env : Env) (h1 : env.fileExists = true)
    (h2 : env.fileSize ≠ 0) :
    pyStartswith (AppV3.transcribe_audio env).1 "Error" = true ∨
    ∃ t, env.whisper = Except.ok t ∧ (AppV3.transcribe_audio env).1 = t := by
  unfold AppV3.transcribe_audio
  cases hw : env.whisper with
  | error e =>
    left
    simp [h1, h2, hw]
    exact pyStartswith_append "Error during transcription: " "Error" e (by decide)
  | ok t =>
    right
    refine ⟨t, rfl, ?_⟩
    simp [h1, h2, hw]

theorem C9_witness :
    pyStartswith (AppV3.transcribe_audio envOk).1 "Error" = true ∨
    ∃ t, envOk.whisper = Except.ok t ∧ (AppV3.transcribe_audio envOk).1 = t :=
  C9_transcribe_result_shape envOk (by decide) (by decide)

end SecureTranslator
